import Mathlib

/-!
# Verification of `ExperimentalDataReader.py` (fs_reader)

Shallow embedding of `src/ExperimentalDataReader.py` (class `DataReader`).

Modelling conventions:
* A pandas timestamp is an `Int`: seconds since 1970-01-01 00:00:00 in the
  proleptic Gregorian calendar (the `datetime64[s]` value underlying the
  second-resolution timestamps the program builds).  The `datetime64[ns]`
  range bounds (years 1677..2262) are not modelled; no claim depends on them.
* A float cell is an `Option ℚ`: `none` is `NaN` (missing), `some q` a finite
  value.  Infinities do not arise in the verified code paths (no division by
  zero is reachable: `0` is outside every allowed calibration set).
* A raised Python exception is an `Except` error value.  `MergeError` collects
  the exception classes that the two-file reading path can raise; the spec's
  `FormatError`/`ValidationError` names are abstractions of these.
* Python's `x in list` membership test is `∈` on `Option ℚ` lists; `np.nan`
  passed for the `np.nan` entry of an allowed list matches by object identity
  in Python, which the single `none` value models.
-/

/-- Errors raised by the `read_from_d_t` pipeline.
* `lengthMismatch`: numpy broadcasting error when a `Series` of one length is
  added to a list of an incompatible length (`dlts_data.time + ' ' + date_str`).
* `formatError`: `pd.to_datetime(..., format='%H:%M:%S %d.%m.%Y')` failed.
* `reindexError`: `resample('S').ffill()` failed because the temperature index
  is not strictly increasing (pandas `reindex` rejects duplicate labels and
  non-monotonic indexes). -/
inductive MergeError where
  | lengthMismatch
  | formatError
  | reindexError
deriving DecidableEq, Repr

/- ### Calendar arithmetic (proleptic Gregorian, as used by pandas datetimes)

`daysFromCivil`/`civilFromDays` convert between a calendar date and the number
of days since 1970-01-01, using truncated `Int` division exactly as the
standard civil-calendar algorithms do. -/

/-- Days since 1970-01-01 of the civil date `y-m-d`. -/
def daysFromCivil (y m d : Int) : Int :=
  let y2 := if m ≤ 2 then y - 1 else y
  let era := (if 0 ≤ y2 then y2 else y2 - 399) / 400
  let yoe := y2 - era * 400
  let doy := (153 * (if 2 < m then m - 3 else m + 9) + 2) / 5 + d - 1
  let doe := yoe * 365 + yoe / 4 - yoe / 100 + doy
  era * 146097 + doe - 719468

/-- Civil date `(y, m, d)` of the day `z` days after 1970-01-01. -/
def civilFromDays (z : Int) : Int × Int × Int :=
  let z2 := z + 719468
  let era := (if 0 ≤ z2 then z2 else z2 - 146096) / 146097
  let doe := z2 - era * 146097
  let yoe := (doe - doe / 1460 + doe / 36524 - doe / 146096) / 365
  let y := yoe + era * 400
  let doy := doe - (365 * yoe + yoe / 4 - yoe / 100)
  let mp := (5 * doy + 2) / 153
  let d := doy - (153 * mp + 2) / 5 + 1
  let m := if mp < 10 then mp + 3 else mp - 9
  (if m ≤ 2 then y + 1 else y, m, d)

/-- Whether `y` is a leap year (Gregorian rule). -/
def isLeapYear (y : Int) : Bool :=
  (y % 4 == 0 && y % 100 != 0) || (y % 400 == 0)

/-- Number of days in month `m` of year `y`. -/
def daysInMonth (y m : Int) : Int :=
  if m = 2 then (if isLeapYear y then 29 else 28)
  else if m = 4 ∨ m = 6 ∨ m = 9 ∨ m = 11 then 30
  else 31

/- ### Timestamp parsing: `pd.to_datetime(s, format='%H:%M:%S %d.%m.%Y')`

Strict format parsing: the whole string must be consumed; `%H`/`%M`/`%S`/`%d`
/`%m` match one or two digits, `%Y` one to four digits; field values must form
a valid time of day and a valid calendar date, otherwise the call raises. -/

/-- Decimal value of a digit string; `none` unless `s` is 1 to `maxLen`
digit characters. -/
def parseDigits (maxLen : Nat) (s : String) : Option Nat :=
  if s.length = 0 ∨ maxLen < s.length ∨ ¬ s.data.all Char.isDigit then none
  else some (s.data.foldl (fun n c => 10 * n + (c.toNat - 48)) 0)

/-- Parse `"H:M:S d.m.Y"` to seconds since 1970-01-01; raises `formatError`
on any string not of this shape or denoting an invalid time or date. -/
def parseTimestamp (s : String) : Except MergeError Int :=
  match s.splitOn " " with
  | [hms, dmy] =>
    match hms.splitOn ":", dmy.splitOn "." with
    | [hs, mins, secs], [ds, ms, ys] =>
      match parseDigits 2 hs, parseDigits 2 mins, parseDigits 2 secs,
            parseDigits 2 ds, parseDigits 2 ms, parseDigits 4 ys with
      | some h, some mi, some sec, some d, some mo, some y =>
        if h ≤ 23 ∧ mi ≤ 59 ∧ sec ≤ 59 ∧ 1 ≤ mo ∧ mo ≤ 12 ∧ 1 ≤ d ∧
            (d : Int) ≤ daysInMonth y mo ∧ 1 ≤ y then
          .ok (daysFromCivil y mo d * 86400 + h * 3600 + mi * 60 + sec)
        else .error .formatError
      | _, _, _, _, _, _ => .error .formatError
    | _, _ => .error .formatError
  | _ => .error .formatError

/- ### Date extraction: `re.findall('\d\d\.\d\d\.\d\d\d\d', content)`

Returns the list of all non-overlapping, leftmost-first matches (ASCII digits;
non-ASCII `\d` matches are not modelled). -/

/-- Scanner over the character list implementing the `findall` loop. -/
def scanDates : List Char → List String
  | d1 :: d2 :: c1 :: d3 :: d4 :: c2 :: d5 :: d6 :: d7 :: d8 :: rest =>
    if d1.isDigit && d2.isDigit && c1 = '.' && d3.isDigit && d4.isDigit &&
        c2 = '.' && d5.isDigit && d6.isDigit && d7.isDigit && d8.isDigit then
      String.mk [d1, d2, '.', d3, d4, '.', d5, d6, d7, d8] ::
        scanDates rest
    else
      scanDates (d2 :: c1 :: d3 :: d4 :: c2 :: d5 :: d6 :: d7 :: d8 :: rest)
  | _ :: rest => scanDates rest
  | [] => []
termination_by l => l.length
decreasing_by all_goals simp_arith

/-- `re.findall('\d\d\.\d\d\.\d\d\d\d', content)`. -/
def findallDates (content : String) : List String :=
  scanDates content.data

/-- Apply `f` to every element, stopping at the first raised error (the
vectorized `pd.to_datetime` call: all rows convert, or the call raises). -/
def mapExcept (f : String → Except MergeError Int) :
    List String → Except MergeError (List Int)
  | [] => .ok []
  | a :: as =>
    match f a with
    | .error e => .error e
    | .ok v =>
      match mapExcept f as with
      | .error e => .error e
      | .ok vs => .ok (v :: vs)

/- ### Series + list addition

`series + date_str` adds a `Series` of strings and a Python list of strings.
pandas converts the list to a numpy array and applies numpy broadcasting:
the operation succeeds elementwise when the lengths agree, broadcasts a
length-1 list over the whole series, and raises otherwise (a length-1 series
against a longer list broadcasts at the numpy level but then fails to rebuild
a series on the original index, so it raises as well). -/

/-- `Series(xs) + ys` for a string series `xs` and string list `ys`. -/
def seriesAddList (xs ys : List String) : Except MergeError (List String) :=
  if xs.length = ys.length then .ok (List.zipWith (· ++ ·) xs ys)
  else if ys.length = 1 then .ok (xs.map (· ++ ys.headD ""))
  else .error .lengthMismatch

/- ### Resampling: `temperature_data.set_index('time').resample('S').ffill()`

The resampler builds the per-second grid from the first to the last index
entry and forward-fills each grid second from the most recent observation at
or before it.  `ffill` reindexes the original frame onto the grid, which
requires a strictly increasing index: duplicate timestamps ("cannot reindex
from a duplicate axis") and non-monotonic indexes raise. -/

/-- Whether a list of timestamps is strictly increasing. -/
def strictlyIncreasing : List Int → Bool
  | a :: b :: rest => decide (a < b) && strictlyIncreasing (b :: rest)
  | _ => true

/-- The last value observed at or before `t`, in stream order. -/
def lastAtOrBefore (xs : List (Int × ℚ)) (t : Int) : Option ℚ :=
  ((xs.filter (fun p => decide (p.1 ≤ t))).getLast?).map Prod.snd

/-- The consecutive seconds `t0, t0+1, ..., t0+n-1`. -/
def gridTimes (t0 : Int) : Nat → List Int
  | 0 => []
  | n + 1 => t0 :: gridTimes (t0 + 1) n

/-- `resample('S').ffill()` on a frame indexed by `xs.map Prod.fst`. -/
def resampleFfill : List (Int × ℚ) → Except MergeError (List (Int × ℚ))
  | [] => .ok []
  | x :: tail =>
    if strictlyIncreasing ((x :: tail).map Prod.fst) then
      .ok ((gridTimes x.1
          ((((x :: tail).getLast?.getD x).1 - x.1 + 1).toNat)).map
        (fun t => (t, (lastAtOrBefore (x :: tail) t).getD 0)))
    else .error .reindexError

/-- Lookup of the left-join key `t` in the (unique-keyed) resampled grid:
`merge(right=temperature_data, how='left', on='time')` attaches this value. -/
def gridLookup (grid : List (Int × ℚ)) (t : Int) : Option ℚ :=
  (grid.find? (fun p => p.1 == t)).map Prod.snd

/- ### The two input streams and the merged record -/

/-- One parsed row of the signal (DLTS) file: columns 0, 2, 3
(`time`, `frequency_hz`, `dlts_v`). -/
structure SigRow where
  time : String
  frequency_hz : ℚ
  dlts_v : ℚ
deriving DecidableEq, Repr

/-- One parsed row of the temperature file: columns 0, 3
(`time`, `temperature_k`). -/
structure TempRow where
  time : String
  temperature_k : ℚ
deriving DecidableEq, Repr

/-- One row of the merged frame produced on line 148 of the source. -/
structure MergedRow where
  time : Int
  frequency_hz : ℚ
  dlts_v : ℚ
  temperature_k : Option ℚ
deriving DecidableEq, Repr

/-- The tail of the merge: resample the timestamped temperature stream onto
the per-second grid (lines 144-145), then left-join the signal stream on
`time` (line 148), one output row per signal row in signal order. -/
def mergeStreams (sigTimes : List Int) (dlts : List SigRow)
    (tempTimes : List Int) (temps : List TempRow) :
    Except MergeError (List MergedRow) :=
  match resampleFfill (tempTimes.zip (temps.map
      (fun r => r.temperature_k))) with
  | .error e => .error e
  | .ok grid =>
    .ok ((sigTimes.zip dlts).map (fun p =>
      { time := p.1
        frequency_hz := p.2.frequency_hz
        dlts_v := p.2.dlts_v
        temperature_k := gridLookup grid p.1 }))

/-- `DataReader.read_from_d_t`, starting from the two parsed streams (the
`pd.read_csv` results of lines 117-133) and the raw text `content` of the
signal file (read on line 135).  Steps, in source order:
date extraction (136), signal date append (138), signal `to_datetime` (139),
temperature date append (141), temperature `to_datetime` (142),
per-second resample with forward fill and left join (144-148). -/
def read_from_d_t (dlts : List SigRow) (temps : List TempRow)
    (content : String) : Except MergeError (List MergedRow) :=
  match seriesAddList (dlts.map (fun r => r.time ++ " "))
      (findallDates content) with
  | .error e => .error e
  | .ok sigStrs =>
    match mapExcept parseTimestamp sigStrs with
    | .error e => .error e
    | .ok sigTimes =>
      match seriesAddList (temps.map (fun r => r.time ++ " "))
          (findallDates content) with
      | .error e => .error e
      | .ok tempStrs =>
        match mapExcept parseTimestamp tempStrs with
        | .error e => .error e
        | .ok tempTimes => mergeStreams sigTimes dlts tempTimes temps

/-- The merge as the spec describes date handling: one single date token
combined with every row's time-of-day in both streams.  `read_from_d_t`
coincides with this whenever the file content contains exactly one date
match. -/
def read_with_single_date (d : String) (dlts : List SigRow)
    (temps : List TempRow) : Except MergeError (List MergedRow) :=
  match mapExcept parseTimestamp (dlts.map (fun r => r.time ++ " " ++ d)) with
  | .error e => .error e
  | .ok sigTimes =>
    match mapExcept parseTimestamp
        (temps.map (fun r => r.time ++ " " ++ d)) with
    | .error e => .error e
    | .ok tempTimes => mergeStreams sigTimes dlts tempTimes temps

/- ### The record store: `self.data`

One row of the 13-column `DataFrame` built by the constructor (lines 85-97).
All cells are nullable; a fresh merge leaves the nine calibration and derived
columns `NaN` (`none`). -/

/-- One row of `self.data`. -/
structure DRow where
  time : Option Int
  frequency_hz : Option ℚ
  dlts_v : Option ℚ
  temperature_k : Option ℚ
  dlts_pf : Option ℚ
  bs : Option ℚ
  ls : Option ℚ
  f_pulse : Option ℚ
  u1 : Option ℚ
  ur : Option ℚ
  time_between_meas : Option ℚ
  integral_time : Option ℚ
  specimen_name : Option String
deriving DecidableEq, Repr

/-- The `self.data` table. -/
def Table := List DRow

instance : DecidableEq Table := inferInstanceAs (DecidableEq (List DRow))

instance : Membership DRow Table :=
  inferInstanceAs (Membership DRow (List DRow))

/-- The merged frame written into `self.data[['time', 'frequency_hz',
'dlts_v', 'temperature_k']]` on line 148; on a freshly constructed reader the
empty frame adopts the merge result's index and the other nine columns are
filled with `NaN`. -/
def mergedTable (rows : List MergedRow) : Table :=
  rows.map (fun r =>
    { time := some r.time
      frequency_hz := some r.frequency_hz
      dlts_v := some r.dlts_v
      temperature_k := r.temperature_k
      dlts_pf := none, bs := none, ls := none, f_pulse := none
      u1 := none, ur := none, time_between_meas := none
      integral_time := none, specimen_name := none })

/-- `ValueError` raised by a validating setter. -/
structure ValidationError where
  message : String
deriving DecidableEq, Repr

/-- Python `str()` of an allowed calibration value (an integer or a
one-decimal float; these are the only values in the allowed sets). -/
def pyStr (q : ℚ) : String :=
  if q.den = 1 then toString q.num
  else toString (q.num / (q.den : Int)) ++ "." ++ toString ((q * 10).num % 10)

/-- `'...'.join(str(_) for _ in allowed_values[:-1])` spliced into the
setter's error message. -/
def allowedValuesMessage (head : String) (allowed_values : List (Option ℚ)) :
    String :=
  head ++ String.intercalate ", "
    ((allowed_values.dropLast).map (fun v => pyStr (v.getD 0))) ++ " or NaN"

/-- Allowed bridge-sensitivity values (`set_bs`, line 225). -/
def bs_allowed_values : List (Option ℚ) :=
  [some 1, some 10, some 100, some 1000, none]

/-- Allowed selector-sensitivity values (`set_ls`, line 252). -/
def ls_allowed_values : List (Option ℚ) :=
  [some 1, some 2, some 5, some 10, some 20, some 50, some 100, some 200,
   some 500, some 1000, none]

/-- Allowed integrating-circuit time constants (`set_integral_time`,
line 333). -/
def integral_time_allowed_values : List (Option ℚ) :=
  [some (3/10), some 1, some 3, some 10, some 30, none]

/-- `DataReader.set_bs`: validate against the allowed set, then broadcast the
value over the whole `bs` column; raise `ValueError` otherwise. -/
def set_bs (bs : Option ℚ) (t : Table) : Except ValidationError Table :=
  if bs ∈ bs_allowed_values then
    .ok (t.map (fun r => { r with bs := bs }))
  else .error ⟨allowedValuesMessage "bs value must be " bs_allowed_values⟩

/-- `DataReader.set_ls`. -/
def set_ls (ls : Option ℚ) (t : Table) : Except ValidationError Table :=
  if ls ∈ ls_allowed_values then
    .ok (t.map (fun r => { r with ls := ls }))
  else .error ⟨allowedValuesMessage "ls value must be " ls_allowed_values⟩

/-- `DataReader.set_integral_time`. -/
def set_integral_time (time : Option ℚ) (t : Table) :
    Except ValidationError Table :=
  if time ∈ integral_time_allowed_values then
    .ok (t.map (fun r => { r with integral_time := time }))
  else .error
    ⟨allowedValuesMessage "time value must be " integral_time_allowed_values⟩

/-- `DataReader.set_specimen_name` (unchecked broadcast). -/
def set_specimen_name (specimen_name : String) (t : Table) : Table :=
  t.map (fun r => { r with specimen_name := some specimen_name })

/-- `DataReader.set_f_pulse` (unchecked broadcast). -/
def set_f_pulse (f_pulse : Option ℚ) (t : Table) : Table :=
  t.map (fun r => { r with f_pulse := f_pulse })

/-- `DataReader.set_u1` (unchecked broadcast). -/
def set_u1 (u1 : Option ℚ) (t : Table) : Table :=
  t.map (fun r => { r with u1 := u1 })

/-- `DataReader.set_ur` (unchecked broadcast). -/
def set_ur (ur : Option ℚ) (t : Table) : Table :=
  t.map (fun r => { r with ur := ur })

/-- `DataReader.set_time_between_meas` (unchecked broadcast). -/
def set_time_between_meas (time : Option ℚ) (t : Table) : Table :=
  t.map (fun r => { r with time_between_meas := time })

/-- The table a caller observes after running a validating setter: the new
table on success, the untouched old table when the setter raised. -/
def applySetter (f : Table → Except ValidationError Table) (t : Table) :
    Table :=
  match f t with
  | .ok t2 => t2
  | .error _ => t

/-- `NaN`-propagating multiplication of float cells. -/
def nmul : Option ℚ → Option ℚ → Option ℚ
  | some a, some b => some (a * b)
  | _, _ => none

/-- `NaN`-propagating division of float cells.  A zero divisor yields `none`
here; in float arithmetic it would yield an infinity, but `0` is outside every
allowed calibration set, so the verified paths never divide by zero. -/
def ndiv : Option ℚ → Option ℚ → Option ℚ
  | some a, some b => if b = 0 then none else some (a / b)
  | _, _ => none

/-- The per-row computation of line 348:
`dlts_v / ((10 / bs) * (10000 / ls))`. -/
def compute_row (r : DRow) : DRow :=
  let denom := nmul (ndiv (some 10) r.bs) (ndiv (some 10000) r.ls)
  { r with dlts_pf := ndiv r.dlts_v denom }

/-- `DataReader.compute_dlts_pf`. -/
def compute_dlts_pf (t : Table) : Table :=
  t.map compute_row

/- ### Serialization: `to_csv` / `read_from_csv` and `to_hdf` / `read_from_hdf`

A `DataFrame` cell as it takes part in serialization: a number, a datetime,
a string, or `NaN`.  `pd.read_csv` with default options never produces a
datetime cell (no `parse_dates` is passed anywhere in the source), which is
the observable type distinction the round-trip claims turn on.  Column-level
dtype bookkeeping (`int64` versus `float64` versus `object`) is not modelled;
this only makes the modelled CSV round-trip more forgiving than pandas. -/

/-- A serializable cell value. -/
inductive PValue where
  | num (q : ℚ)
  | timeVal (ts : Int)
  | strVal (s : String)
  | nan
deriving DecidableEq, Repr

/-- A `DataFrame` as a header plus rows of cells. -/
structure Frame where
  header : List String
  rows : List (List PValue)
deriving DecidableEq, Repr

/-- The column names of `self.data`, in constructor order (lines 85-97). -/
def columnNames : List String :=
  ["time", "frequency_hz", "dlts_v", "temperature_k", "dlts_pf", "bs", "ls",
   "f_pulse", "u1", "ur", "time_between_meas", "integral_time",
   "specimen_name"]

/-- A nullable float cell as a `PValue`. -/
def pcell : Option ℚ → PValue
  | some q => .num q
  | none => .nan

/-- A nullable datetime cell as a `PValue`. -/
def ptime : Option Int → PValue
  | some ts => .timeVal ts
  | none => .nan

/-- A nullable string cell as a `PValue`. -/
def pstr : Option String → PValue
  | some s => .strVal s
  | none => .nan

/-- The row of `PValue` cells a table row contributes to the `DataFrame`
view. -/
def frameRow (r : DRow) : List PValue :=
  [ptime r.time, pcell r.frequency_hz, pcell r.dlts_v, pcell r.temperature_k,
   pcell r.dlts_pf, pcell r.bs, pcell r.ls, pcell r.f_pulse, pcell r.u1,
   pcell r.ur, pcell r.time_between_meas, pcell r.integral_time,
   pstr r.specimen_name]

/-- The `DataFrame` view of a `self.data` table. -/
def toFrame (t : Table) : Frame :=
  ⟨columnNames, t.map frameRow⟩

/-- Fractional decimal digits of `q` with `0 ≤ q < 1` (`fuel` bounds the
output; float values always print as finite decimals, and every dyadic or
decimal rational is rendered exactly). -/
def fracDigits : Nat → ℚ → String
  | 0, _ => ""
  | fuel + 1, q =>
    if q = 0 then ""
    else
      let q10 := q * 10
      let d := q10.floor
      toString d ++ fracDigits fuel (q10 - (d : ℚ))

/-- Decimal rendering of a rational, as `float` repr renders a float. -/
def qToDecimal (q : ℚ) : String :=
  let sign := if q < 0 then "-" else ""
  let a := |q|
  let ip := a.floor
  let fr := fracDigits 40 (a - (ip : ℚ))
  sign ++ toString ip ++ (if fr = "" then "" else "." ++ fr)

/-- Zero-padded decimal rendering of a nonnegative integer. -/
def padNum (width : Nat) (n : Int) : String :=
  let s := toString n
  if s.length < width then String.mk (List.replicate (width - s.length) '0') ++ s
  else s

/-- `str()` of a second-resolution pandas timestamp:
`YYYY-MM-DD HH:MM:SS`, as `to_csv` writes datetime cells. -/
def formatTimestamp (ts : Int) : String :=
  let day := if 0 ≤ ts then ts / 86400 else (ts - 86399) / 86400
  let sod := ts - day * 86400
  let ymd := civilFromDays day
  padNum 4 ymd.1 ++ "-" ++ padNum 2 ymd.2.1 ++ "-" ++ padNum 2 ymd.2.2 ++
    " " ++ padNum 2 (sod / 3600) ++ ":" ++ padNum 2 (sod / 60 % 60) ++ ":" ++
    padNum 2 (sod % 60)

/-- The text `to_csv` writes for one cell (`NaN` becomes the empty field). -/
def csvCell : PValue → String
  | .num q => qToDecimal q
  | .timeVal ts => formatTimestamp ts
  | .strVal s => s
  | .nan => ""

/-- `DataReader.to_csv` (line 361, `index=False`): header line then one
comma-separated line per row. -/
def to_csv (f : Frame) : List String :=
  String.intercalate "," f.header ::
    f.rows.map (fun r => String.intercalate "," (r.map csvCell))

/-- Decimal numeral parsing as `read_csv` type inference performs it:
optional sign, digits, optional fractional digits (exponent forms and
`inf`/`nan` tokens are not modelled; none arise from `to_csv` output of the
values this program stores). -/
def parseDecimal (s : String) : Option ℚ :=
  let core := fun (body : List Char) =>
    match body.span Char.isDigit with
    | (ipart, rest) =>
      if ipart = [] then none
      else
        let ival : ℚ := (ipart.foldl (fun n c => 10 * n + (c.toNat - 48)) 0 : Nat)
        match rest with
        | [] => some ival
        | '.' :: fpart =>
          if fpart.all Char.isDigit then
            let fval : ℚ := (fpart.foldl (fun n c => 10 * n + (c.toNat - 48)) 0 : Nat)
            some (ival + fval / ((10 : ℚ) ^ fpart.length))
          else none
        | _ => none
  match s.data with
  | '-' :: body => (core body).map (fun q => -q)
  | body => core body

/-- One cell as `read_csv` types it: empty cells are `NaN`; cells of an
all-numeric column are numbers; everything else stays text.  `read_csv` never
produces a datetime cell (no `parse_dates`). -/
def typedCell (numeric : Bool) (c : String) : PValue :=
  if c = "" then .nan
  else if numeric then
    match parseDecimal c with
    | some q => .num q
    | none => .strVal c
  else .strVal c

/-- `DataReader.read_from_csv` (line 168): parse the header line, split each
data line on commas, and infer each column's type (`none` models the
`EmptyDataError`/parse failures on malformed input). -/
def read_from_csv (lines : List String) : Option Frame :=
  match lines with
  | [] => none
  | h :: rest =>
    let header := h.splitOn ","
    let cells := rest.map (fun line => line.splitOn ",")
    if cells.all (fun r => r.length = header.length) then
      let numericCol := fun (j : Nat) => cells.all (fun r =>
        let c := (r.getD j "")
        c = "" || (parseDecimal c).isSome)
      some ⟨header,
        cells.map (fun r => r.enum.map (fun jc => typedCell (numericCol jc.1) jc.2))⟩
    else none

/-- `DataReader.to_hdf` (line 376): store the frame under `key` in a fresh
HDF5 file.  The default fixed format round-trips the frame exactly. -/
def to_hdf (f : Frame) (key : String) : List (String × Frame) :=
  [(key, f)]

/-- `DataReader.read_from_hdf` (line 192): load the dataset stored under
`key`. -/
def read_from_hdf (store : List (String × Frame)) (key : String) :
    Option Frame :=
  (store.find? (fun p => p.1 == key)).map Prod.snd

/-- The finite (non-`NaN`) allowed bridge-sensitivity values. -/
def bsFiniteValues : List ℚ := [1, 10, 100, 1000]

/-- The finite (non-`NaN`) allowed selector-sensitivity values. -/
def lsFiniteValues : List ℚ := [1, 2, 5, 10, 20, 50, 100, 200, 500, 1000]

/-- A small concrete table used to instantiate universally quantified
theorems: two rows with distinct values in every column. -/
def sampleTable : Table :=
  [⟨some 1704099600, some 2, some (1/2), none, some (7/2), some 10, some 100,
    some 5, some 1, some (-3), some 60, some 1, some "s1"⟩,
   ⟨some 1704099605, some 4, some (3/4), some 300, none, none, none,
    none, none, none, none, none, none⟩]

/-- A one-row table with a datetime, a null temperature and a specimen name
(all float cells null), used to exhibit the CSV round-trip failure by
direct evaluation. -/
def tCsv : Table :=
  [⟨some 1704099600, none, none, none, none, none, none, none, none, none,
    none, none, some "s1"⟩]

/- ### Helper lemmas -/

theorem mapExcept_ok_length {xs : List String} {ys : List Int}
    (h : mapExcept parseTimestamp xs = .ok ys) : ys.length = xs.length := by
  induction xs generalizing ys with
  | nil => cases h; rfl
  | cons a as ih =>
    unfold mapExcept at h
    cases ha : parseTimestamp a with
    | error e => rw [ha] at h; cases h
    | ok v =>
      rw [ha] at h
      cases hb : mapExcept parseTimestamp as with
      | error e => rw [hb] at h; cases h
      | ok vs => rw [hb] at h; cases h; simp [ih hb]

theorem seriesAddList_ok_length {xs ys zs : List String}
    (h : seriesAddList xs ys = .ok zs) : zs.length = xs.length := by
  unfold seriesAddList at h
  split at h
  · cases h; simp; omega
  · split at h
    · cases h; simp
    · cases h

theorem seriesAddList_single (xs : List String) (d : String) :
    seriesAddList xs [d] = .ok (xs.map (· ++ d)) := by
  unfold seriesAddList
  split
  · next hlen =>
    match xs, hlen with
    | [x], _ => rfl
  · simp

theorem map_zip_snd {α β γ : Type} (g : β → γ) :
    ∀ (a : List α) (b : List β), a.length = b.length →
      (a.zip b).map (fun p => g p.2) = b.map g
  | [], [], _ => rfl
  | _ :: as, _ :: bs, h => by
    simp only [List.zip_cons_cons, List.map_cons]
    exact congrArg _ (map_zip_snd g as bs (by simpa using h))

theorem zip_map_length {α β γ : Type} (f : α × β → γ) (a : List α)
    (b : List β) (h : a.length = b.length) :
    ((a.zip b).map f).length = a.length := by
  simp [List.length_zip, h]

/-- C10: `compute_dlts_pf` writes only the `dlts_pf` column: the row count
and the other twelve columns are unchanged. -/
theorem C10_compute_dlts_pf_modifies_only_dlts_pf (t : Table) :
    (compute_dlts_pf t).length = t.length ∧
    (compute_dlts_pf t).map (fun r => r.time) = t.map (fun r => r.time) ∧
    (compute_dlts_pf t).map (fun r => r.frequency_hz) =
      t.map (fun r => r.frequency_hz) ∧
    (compute_dlts_pf t).map (fun r => r.dlts_v) = t.map (fun r => r.dlts_v) ∧
    (compute_dlts_pf t).map (fun r => r.temperature_k) =
      t.map (fun r => r.temperature_k) ∧
    (compute_dlts_pf t).map (fun r => r.bs) = t.map (fun r => r.bs) ∧
    (compute_dlts_pf t).map (fun r => r.ls) = t.map (fun r => r.ls) ∧
    (compute_dlts_pf t).map (fun r => r.f_pulse) = t.map (fun r => r.f_pulse) ∧
    (compute_dlts_pf t).map (fun r => r.u1) = t.map (fun r => r.u1) ∧
    (compute_dlts_pf t).map (fun r => r.ur) = t.map (fun r => r.ur) ∧
    (compute_dlts_pf t).map (fun r => r.time_between_meas) =
      t.map (fun r => r.time_between_meas) ∧
    (compute_dlts_pf t).map (fun r => r.integral_time) =
      t.map (fun r => r.integral_time) ∧
    (compute_dlts_pf t).map (fun r => r.specimen_name) =
      t.map (fun r => r.specimen_name) := by
  refine ⟨?_, ?_, ?_, ?_, ?_, ?_, ?_, ?_, ?_, ?_, ?_, ?_, ?_⟩ <;>
    simp [compute_dlts_pf, compute_row, List.map_map, Function.comp]

/-- C5: any value outside the fixed allowed set makes `set_bs`, `set_ls` and
`set_integral_time` raise a `ValueError` whose message names the allowed set,
and the table seen after the failed call is the old table, unchanged. -/
theorem C5_invalid_setter_value_raises_and_preserves_table (t : Table)
    (v : Option ℚ) :
    (v ∉ bs_allowed_values →
      set_bs v t = .error ⟨"bs value must be 1, 10, 100, 1000 or NaN"⟩ ∧
      applySetter (set_bs v) t = t) ∧
    (v ∉ ls_allowed_values →
      set_ls v t =
        .error ⟨"ls value must be 1, 2, 5, 10, 20, 50, 100, 200, 500, 1000 or NaN"⟩ ∧
      applySetter (set_ls v) t = t) ∧
    (v ∉ integral_time_allowed_values →
      set_integral_time v t =
        .error ⟨"time value must be 0.3, 1, 3, 10, 30 or NaN"⟩ ∧
      applySetter (set_integral_time v) t = t) := by
  refine ⟨fun h => ⟨?_, ?_⟩, fun h => ⟨?_, ?_⟩, fun h => ⟨?_, ?_⟩⟩
  · unfold set_bs; rw [if_neg h]; with_unfolding_all rfl
  · unfold applySetter set_bs; rw [if_neg h]
  · unfold set_ls; rw [if_neg h]; with_unfolding_all rfl
  · unfold applySetter set_ls; rw [if_neg h]
  · unfold set_integral_time; rw [if_neg h]; with_unfolding_all rfl
  · unfold applySetter set_integral_time; rw [if_neg h]

/-- C5 witness: `7` is outside all three allowed sets; each setter raises
with the message naming the set and leaves `sampleTable` (whose first row has
`dlts_pf = 7/2`) unchanged. -/
theorem C5_invalid_setter_value_raises_and_preserves_table_witness :
    (some (7:ℚ) ∉ bs_allowed_values ∧ some (7:ℚ) ∉ ls_allowed_values ∧
      some (7:ℚ) ∉ integral_time_allowed_values) ∧
    (set_bs (some 7) sampleTable =
        .error ⟨"bs value must be 1, 10, 100, 1000 or NaN"⟩ ∧
      applySetter (set_bs (some 7)) sampleTable = sampleTable) ∧
    (set_ls (some 7) sampleTable =
        .error ⟨"ls value must be 1, 2, 5, 10, 20, 50, 100, 200, 500, 1000 or NaN"⟩ ∧
      applySetter (set_ls (some 7)) sampleTable = sampleTable) ∧
    (set_integral_time (some 7) sampleTable =
        .error ⟨"time value must be 0.3, 1, 3, 10, 30 or NaN"⟩ ∧
      applySetter (set_integral_time (some 7)) sampleTable = sampleTable) := by
  have h := C5_invalid_setter_value_raises_and_preserves_table sampleTable
    (some 7)
  have h1 : some (7:ℚ) ∉ bs_allowed_values := by
    with_unfolding_all decide
  have h2 : some (7:ℚ) ∉ ls_allowed_values := by
    with_unfolding_all decide
  have h3 : some (7:ℚ) ∉ integral_time_allowed_values := by
    with_unfolding_all decide
  exact ⟨⟨h1, h2, h3⟩, h.1 h1, h.2.1 h2, h.2.2 h3⟩

/-- C6: `compute_dlts_pf` writes `dlts_v / ((10/bs) * (10000/ls))` into every
row's `dlts_pf`; for allowed (nonzero) `bs` and `ls` the quotient is exact,
and a row with unset `bs` or `ls` gets a null `dlts_pf` (the call itself
never raises: it is a total function on tables). -/
theorem C6_compute_dlts_pf_formula (t : Table) :
    compute_dlts_pf t = t.map compute_row ∧
    (∀ (r : DRow) (b l v : ℚ), r.bs = some b → b ∈ bsFiniteValues →
      r.ls = some l → l ∈ lsFiniteValues → r.dlts_v = some v →
      (compute_row r).dlts_pf = some (v / ((10 / b) * (10000 / l)))) ∧
    (∀ r : DRow, r.bs = none ∨ r.ls = none →
      (compute_row r).dlts_pf = none) := by
  refine ⟨rfl, ?_, ?_⟩
  · intro r b l v hb hbm hl hlm hv
    have hb0 : b ≠ 0 := by fin_cases hbm <;> norm_num
    have hl0 : l ≠ 0 := by fin_cases hlm <;> norm_num
    have hw : (10 / b) * (10000 / l) ≠ 0 :=
      mul_ne_zero (div_ne_zero (by norm_num) hb0)
        (div_ne_zero (by norm_num) hl0)
    simp [compute_row, ndiv, nmul, hb, hl, hv, hb0, hl0, hw]
  · intro r h
    rcases h with h | h <;> simp [compute_row, ndiv, nmul, h]

/-- C6 witness: a row with `dlts_v = 1/2`, `bs = 10`, `ls = 100` gets
`dlts_pf = (1/2) / ((10/10) * (10000/100))`, and a row with unset `bs`
gets a null `dlts_pf`. -/
theorem C6_compute_dlts_pf_formula_witness :
    (compute_row ⟨some 1704099600, some 2, some (1/2), none, none, some 10,
        some 100, none, none, none, none, none, none⟩).dlts_pf =
      some ((1/2 : ℚ) / ((10 / 10) * (10000 / 100))) ∧
    (compute_row ⟨some 1704099600, some 2, some (1/2), none, none, none,
        some 100, none, none, none, none, none, none⟩).dlts_pf = none := by
  have h := C6_compute_dlts_pf_formula []
  exact ⟨h.2.1 _ 10 100 (1/2) rfl (by with_unfolding_all decide) rfl
      (by with_unfolding_all decide) rfl,
    h.2.2 _ (Or.inl rfl)⟩

/-- C7: every calibration setter broadcasts its single argument over the
whole column: the unchecked setters always, the validating setters on every
successful call; and `set_integral_time 0.3` succeeds on any table. -/
theorem C7_setters_broadcast_uniform_value (t : Table) (name : String)
    (v : Option ℚ) :
    (set_specimen_name name t).map (fun r => r.specimen_name) =
      List.replicate t.length (some name) ∧
    (set_f_pulse v t).map (fun r => r.f_pulse) = List.replicate t.length v ∧
    (set_u1 v t).map (fun r => r.u1) = List.replicate t.length v ∧
    (set_ur v t).map (fun r => r.ur) = List.replicate t.length v ∧
    (set_time_between_meas v t).map (fun r => r.time_between_meas) =
      List.replicate t.length v ∧
    (∀ t2, set_bs v t = .ok t2 →
      t2.map (fun r => r.bs) = List.replicate t.length v) ∧
    (∀ t2, set_ls v t = .ok t2 →
      t2.map (fun r => r.ls) = List.replicate t.length v) ∧
    (∀ t2, set_integral_time v t = .ok t2 →
      t2.map (fun r => r.integral_time) = List.replicate t.length v) ∧
    set_integral_time (some (3/10)) t =
      .ok (t.map (fun r => { r with integral_time := some (3/10) })) := by
  refine ⟨?_, ?_, ?_, ?_, ?_, ?_, ?_, ?_, ?_⟩
  · simp [set_specimen_name, List.map_map, Function.comp_def]
  · simp [set_f_pulse, List.map_map, Function.comp_def]
  · simp [set_u1, List.map_map, Function.comp_def]
  · simp [set_ur, List.map_map, Function.comp_def]
  · simp [set_time_between_meas, List.map_map, Function.comp_def]
  · intro t2 h
    unfold set_bs at h
    split at h
    · cases h; simp [List.map_map, Function.comp_def]
    · cases h
  · intro t2 h
    unfold set_ls at h
    split at h
    · cases h; simp [List.map_map, Function.comp_def]
    · cases h
  · intro t2 h
    unfold set_integral_time at h
    split at h
    · cases h; simp [List.map_map, Function.comp_def]
    · cases h
  · unfold set_integral_time
    rw [if_pos (by with_unfolding_all decide)]

/-- C7 witness: on the two-row `sampleTable`, `set_bs 10` succeeds and fills
the `bs` column with `10`, and `set_integral_time 0.3` succeeds and
broadcasts `0.3`. -/
theorem C7_setters_broadcast_uniform_value_witness :
    (set_specimen_name "s" sampleTable).map (fun r => r.specimen_name) =
      List.replicate sampleTable.length (some "s") ∧
    ((applySetter (set_bs (some 10)) sampleTable).map (fun r => r.bs) =
      List.replicate sampleTable.length (some 10)) ∧
    set_integral_time (some (3/10)) sampleTable =
      .ok (sampleTable.map
        (fun r => { r with integral_time := some (3/10) })) := by
  have h := C7_setters_broadcast_uniform_value sampleTable "s" (some 10)
  refine ⟨h.1, ?_, h.2.2.2.2.2.2.2.2⟩
  have hok : set_bs (some 10) sampleTable =
      .ok (sampleTable.map (fun r => { r with bs := some 10 })) := by
    unfold set_bs
    rw [if_pos (by with_unfolding_all decide)]
  have h2 := h.2.2.2.2.2.1 _ hok
  rw [show applySetter (set_bs (some 10)) sampleTable =
      sampleTable.map (fun r => { r with bs := some 10 }) by
    unfold applySetter; rw [hok]]
  exact h2

/-- Inversion of a successful `read_from_d_t` run: names each intermediate
result and the shape of the produced table. -/
theorem read_from_d_t_ok_elim {dlts : List SigRow} {temps : List TempRow}
    {content : String} {t : List MergedRow}
    (h : read_from_d_t dlts temps content = .ok t) :
    ∃ sigStrs sigTimes tempStrs tempTimes grid,
      seriesAddList (dlts.map (fun r => r.time ++ " "))
          (findallDates content) = .ok sigStrs ∧
      mapExcept parseTimestamp sigStrs = .ok sigTimes ∧
      seriesAddList (temps.map (fun r => r.time ++ " "))
          (findallDates content) = .ok tempStrs ∧
      mapExcept parseTimestamp tempStrs = .ok tempTimes ∧
      resampleFfill (tempTimes.zip (temps.map (fun r => r.temperature_k))) =
        .ok grid ∧
      t = (sigTimes.zip dlts).map (fun p =>
        { time := p.1
          frequency_hz := p.2.frequency_hz
          dlts_v := p.2.dlts_v
          temperature_k := gridLookup grid p.1 }) := by
  unfold read_from_d_t mergeStreams at h
  split at h
  · cases h
  · next sigStrs h1 =>
    split at h
    · cases h
    · next sigTimes h2 =>
      split at h
      · cases h
      · next tempStrs h3 =>
        split at h
        · cases h
        · next tempTimes h4 =>
          split at h
          · cases h
          · next grid h5 =>
            cases h
            exact ⟨sigStrs, sigTimes, tempStrs, tempTimes, grid,
              h1, h2, h3, h4, h5, rfl⟩

theorem merged_payload (grid : List (Int × ℚ)) :
    ∀ (a : List Int) (b : List SigRow), a.length = b.length →
      ((a.zip b).map (fun p =>
        ({ time := p.1
           frequency_hz := p.2.frequency_hz
           dlts_v := p.2.dlts_v
           temperature_k := gridLookup grid p.1 } : MergedRow))).map
        (fun r => (r.frequency_hz, r.dlts_v)) =
      b.map (fun r => (r.frequency_hz, r.dlts_v))
  | [], [], _ => rfl
  | x :: a, r :: b, h => by
    simp only [List.zip_cons_cons, List.map_cons]
    exact congrArg _ (merged_payload grid a b (by simpa using h))

/-- C1: whenever `read_from_d_t` produces a merged table, that table has
exactly one row per signal row, in the original signal order: the sequence of
`(frequency_hz, dlts_v)` payloads of the output equals that of the signal
stream (no row dropped, duplicated or reordered). -/
theorem C1_merge_one_row_per_signal_row_in_order (dlts : List SigRow)
    (temps : List TempRow) (content : String) (t : List MergedRow)
    (h : read_from_d_t dlts temps content = .ok t) :
    t.length = dlts.length ∧
    t.map (fun r => (r.frequency_hz, r.dlts_v)) =
      dlts.map (fun r => (r.frequency_hz, r.dlts_v)) := by
  obtain ⟨sigStrs, sigTimes, tempStrs, tempTimes, grid,
    h1, h2, h3, h4, h5, ht⟩ := read_from_d_t_ok_elim h
  have hlen : sigTimes.length = dlts.length := by
    rw [mapExcept_ok_length h2, seriesAddList_ok_length h1, List.length_map]
  subst ht
  constructor
  · simp [List.length_zip, hlen]
  · exact merged_payload grid sigTimes dlts hlen

/-- C1 witness: a two-row signal stream and a one-row temperature stream
merge into a two-row table carrying the signal payloads in order. -/
theorem C1_merge_one_row_per_signal_row_in_order_witness :
    ([⟨1704099600, 1, 2, none⟩,
      ⟨1704099602, 3, 4, some 300⟩] : List MergedRow).length =
      ([⟨"09:00:00", 1, 2⟩, ⟨"09:00:02", 3, 4⟩] : List SigRow).length ∧
    ([⟨1704099600, 1, 2, none⟩,
      ⟨1704099602, 3, 4, some 300⟩] : List MergedRow).map
        (fun r => (r.frequency_hz, r.dlts_v)) =
      ([⟨"09:00:00", 1, 2⟩, ⟨"09:00:02", 3, 4⟩] : List SigRow).map
        (fun r => (r.frequency_hz, r.dlts_v)) :=
  C1_merge_one_row_per_signal_row_in_order
    [⟨"09:00:00", 1, 2⟩, ⟨"09:00:02", 3, 4⟩] [⟨"09:00:02", 300⟩]
    "01.01.2024" _ (by with_unfolding_all rfl)

theorem si_tail {a : Int} {l : List Int}
    (h : strictlyIncreasing (a :: l) = true) :
    strictlyIncreasing l = true := by
  cases l with
  | nil => rfl
  | cons b m =>
    simp only [strictlyIncreasing, Bool.and_eq_true] at h
    exact h.2

theorem si_head_le_last (x : Int × ℚ) (xs : List (Int × ℚ))
    (h : strictlyIncreasing ((x :: xs).map Prod.fst) = true) :
    x.1 ≤ (((x :: xs).getLast?).getD x).1 := by
  induction xs generalizing x with
  | nil => simp
  | cons y ys ih =>
    have hxy : x.1 < y.1 := by
      simp only [List.map_cons, strictlyIncreasing, Bool.and_eq_true,
        decide_eq_true_eq] at h
      exact h.1
    have h2 : strictlyIncreasing ((y :: ys).map Prod.fst) = true := by
      simp only [List.map_cons] at h ⊢
      exact si_tail h
    have hy := ih y h2
    have hne : (y :: ys).getLast?.isSome := by
      rw [List.getLast?_isSome]
      simp
    cases hL : (y :: ys).getLast? with
    | none => rw [hL] at hne; cases hne
    | some z =>
      rw [hL] at hy
      rw [List.getLast?_cons_cons, hL]
      simp only [Option.getD_some] at hy ⊢
      omega

theorem lastAtOrBefore_isSome (x : Int × ℚ) (xs : List (Int × ℚ)) (s : Int)
    (hx : x.1 ≤ s) : ∃ v, lastAtOrBefore (x :: xs) s = some v := by
  unfold lastAtOrBefore
  rw [List.filter_cons_of_pos (by simpa using hx)]
  have hne : (x :: (xs.filter (fun p => decide (p.1 ≤ s)))).getLast?.isSome := by
    rw [List.getLast?_isSome]
    simp
  cases hL : (x :: (xs.filter (fun p => decide (p.1 ≤ s)))).getLast? with
  | none => rw [hL] at hne; cases hne
  | some z => exact ⟨z.2, rfl⟩

theorem gridTimes_find (f : Int → ℚ) :
    ∀ (n : Nat) (t0 s : Int),
      ((gridTimes t0 n).map (fun g => (g, f g))).find?
          (fun p => p.1 == s) =
        if t0 ≤ s ∧ s < t0 + n then some (s, f s) else none := by
  intro n
  induction n with
  | zero =>
    intro t0 s
    rw [if_neg (by push_cast; omega)]
    rfl
  | succ n ih =>
    intro t0 s
    simp only [gridTimes, List.map_cons]
    by_cases hts : t0 = s
    · subst hts
      rw [List.find?_cons_of_pos _ (by simp)]
      rw [if_pos (by push_cast; omega)]
    · rw [List.find?_cons_of_neg _ (by simp [hts]), ih (t0 + 1) s]
      by_cases h2 : t0 + 1 ≤ s ∧ s < t0 + 1 + n
      · rw [if_pos h2, if_pos (by push_cast at h2 ⊢; omega)]
      · rw [if_neg h2, if_neg (by push_cast at h2 ⊢; omega)]

/-- C2 (amended): the temperature the merge attaches is the forward-filled
grid value: for a sorted nonempty temperature stream, the left-join lookup at
a signal time `s` returns the most recent temperature observation at or
before `s` when `s` lies within the grid (first to last temperature
timestamp) and null outside it — in particular null before the first sample
and null past the grid's end.  In the spec's scenario (signal rows 09:00:00
and 09:00:05, single temperature sample 09:00:02 -> 300), both signal rows
therefore get null: the grid ends at 09:00:02, so 09:00:05 is past its end
and does not receive 300. -/
theorem C2_merge_attaches_forward_filled_grid_value
    (x : Int × ℚ) (xs : List (Int × ℚ))
    (hsort : strictlyIncreasing ((x :: xs).map Prod.fst) = true)
    (grid : List (Int × ℚ))
    (hgrid : resampleFfill (x :: xs) = .ok grid) (s : Int) :
    (gridLookup grid s =
      if x.1 ≤ s ∧ s ≤ (((x :: xs).getLast?).getD x).1 then
        lastAtOrBefore (x :: xs) s
      else none) ∧
    (read_from_d_t [⟨"09:00:00", 1, 2⟩, ⟨"09:00:05", 3, 4⟩]
        [⟨"09:00:02", 300⟩] "01.01.2024").map
      (List.map (fun r => r.temperature_k)) = .ok [none, none] := by
  refine ⟨?_, by with_unfolding_all rfl⟩
  simp only [resampleFfill] at hgrid
  rw [if_pos hsort] at hgrid
  cases hgrid
  have hle : x.1 ≤ (((x :: xs).getLast?).getD x).1 :=
    si_head_le_last x xs hsort
  unfold gridLookup
  rw [gridTimes_find (fun t => (lastAtOrBefore (x :: xs) t).getD 0)]
  have hcast :
      ((((((x :: xs).getLast?).getD x).1 - x.1 + 1).toNat : Int)) =
        (((x :: xs).getLast?).getD x).1 - x.1 + 1 :=
    Int.toNat_of_nonneg (by omega)
  by_cases hc : x.1 ≤ s ∧ s ≤ (((x :: xs).getLast?).getD x).1
  · rw [if_pos (by rw [hcast]; omega), if_pos hc]
    obtain ⟨v, hv⟩ := lastAtOrBefore_isSome x xs s hc.1
    simp [hv]
  · rw [if_neg (by rw [hcast]; omega), if_neg hc]
    rfl

/-- C2 witness: with the single temperature sample `09:00:02 -> 300`
(timestamp 1704099602), the grid lookup at the signal time `09:00:05`
(timestamp 1704099605) hits the out-of-grid branch. -/
theorem C2_merge_attaches_forward_filled_grid_value_witness :
    (gridLookup [((1704099602 : Int), (300 : ℚ))] 1704099605 =
      if (1704099602 : Int) ≤ (1704099605 : Int) ∧
          (1704099605 : Int) ≤ (1704099602 : Int) then
        lastAtOrBefore [((1704099602 : Int), (300 : ℚ))] 1704099605
      else none) ∧
    (read_from_d_t [⟨"09:00:00", 1, 2⟩, ⟨"09:00:05", 3, 4⟩]
        [⟨"09:00:02", 300⟩] "01.01.2024").map
      (List.map (fun r => r.temperature_k)) = .ok [none, none] :=
  C2_merge_attaches_forward_filled_grid_value (1704099602, 300) [] rfl _
    (by with_unfolding_all rfl) 1704099605

/-- C2 counterexample: in the claim's own scenario the merge attaches null at
`09:00:05`, not `300`: the per-second grid is bounded by the temperature
stream's last timestamp `09:00:02`, and `09:00:05` lies past its end. -/
theorem C2_scenario_attaches_null_not_300 :
    (read_from_d_t [⟨"09:00:00", 1, 2⟩, ⟨"09:00:05", 3, 4⟩]
        [⟨"09:00:02", 300⟩] "01.01.2024").map
      (List.map (fun r => r.temperature_k)) = .ok [none, none] ∧
    (Except.ok [none, none] : Except MergeError (List (Option ℚ))) ≠
      .ok [none, some 300] :=
  ⟨by with_unfolding_all rfl, by simp⟩

theorem si_head_lt (a : Int) (l : List Int)
    (h : strictlyIncreasing (a :: l) = true) :
    ∀ (k : Nat) (hk : k < l.length), a < l.get ⟨k, hk⟩ := by
  induction l generalizing a with
  | nil => intro k hk; cases hk
  | cons b m ih =>
    intro k hk
    have hab : a < b := by
      simp only [strictlyIncreasing, Bool.and_eq_true, decide_eq_true_eq] at h
      exact h.1
    have hs : strictlyIncreasing (b :: m) = true := si_tail h
    cases k with
    | zero => simpa using hab
    | succ k2 =>
      have hk2 : k2 < m.length := by simpa using hk
      have := ih b hs k2 hk2
      simp only [List.get_cons_succ]
      omega

theorem si_get_lt (l : List Int) (h : strictlyIncreasing l = true) :
    ∀ (i j : Nat) (hi : i < l.length) (hj : j < l.length), i < j →
      l.get ⟨i, hi⟩ < l.get ⟨j, hj⟩ := by
  induction l with
  | nil => intro i j hi; cases hi
  | cons a m ih =>
    intro i j hi hj hij
    cases i with
    | zero =>
      cases j with
      | zero => cases hij
      | succ jj =>
        have hjj : jj < m.length := by simpa using hj
        simpa using si_head_lt a m h jj hjj
    | succ ii =>
      cases j with
      | zero => cases hij
      | succ jj =>
        have hii : ii < m.length := by simpa using hi
        have hjj : jj < m.length := by simpa using hj
        simpa using ih (si_tail h) ii jj hii hjj (by omega)

/-- C9 (amended): two temperature rows in the same second make the resampling
step raise (the reindex onto the per-second grid rejects a duplicated
timestamp index); no last-write-wins value is recorded. -/
theorem C9_duplicate_second_raises_reindex_error (xs : List (Int × ℚ))
    (i j : Nat) (hij : i < j) (hi : i < xs.length) (hj : j < xs.length)
    (heq : (xs.get ⟨i, hi⟩).1 = (xs.get ⟨j, hj⟩).1) :
    resampleFfill xs = .error .reindexError := by
  cases xs with
  | nil => cases hi
  | cons x tail =>
    have hns : ¬ (strictlyIncreasing ((x :: tail).map Prod.fst) = true) := by
      intro hs
      have hi2 : i < ((x :: tail).map Prod.fst).length := by simpa using hi
      have hj2 : j < ((x :: tail).map Prod.fst).length := by simpa using hj
      have hlt := si_get_lt _ hs i j hi2 hj2 hij
      simp only [List.get_eq_getElem, List.getElem_map] at hlt
      simp only [List.get_eq_getElem] at heq
      omega
    simp only [resampleFfill]
    rw [if_neg hns]

/-- C9 witness: two temperature rows at the same timestamp 1704099602 make
`resampleFfill` raise. -/
theorem C9_duplicate_second_raises_reindex_error_witness :
    resampleFfill [((1704099602 : Int), (290 : ℚ)),
      ((1704099602 : Int), (300 : ℚ))] = .error .reindexError :=
  C9_duplicate_second_raises_reindex_error
    [(1704099602, 290), (1704099602, 300)] 0 1 (by decide) (by decide)
    (by decide) rfl

/-- C9 counterexample: with two temperature rows in the same second
(`09:00:02 -> 290` then `09:00:02 -> 300`), `read_from_d_t` raises instead of
recording the later row's value on the grid. -/
theorem C9_duplicate_second_merge_raises :
    read_from_d_t [⟨"09:00:03", 1, 2⟩]
      [⟨"09:00:02", 290⟩, ⟨"09:00:02", 300⟩] "01.01.2024" =
      .error .reindexError :=
  by with_unfolding_all rfl

theorem read_eq_single_date {content d : String} (dlts : List SigRow)
    (temps : List TempRow) (hd : findallDates content = [d]) :
    read_from_d_t dlts temps content = read_with_single_date d dlts temps := by
  unfold read_from_d_t read_with_single_date
  rw [hd, seriesAddList_single, seriesAddList_single, List.map_map,
    List.map_map]
  rfl

theorem read_no_date_error {content : String} (dlts : List SigRow)
    (temps : List TempRow) (hd : findallDates content = [])
    (hne : dlts ≠ []) :
    read_from_d_t dlts temps content = .error .lengthMismatch := by
  unfold read_from_d_t
  rw [hd]
  have hadd : seriesAddList (dlts.map (fun r => r.time ++ " "))
      ([] : List String) = .error .lengthMismatch := by
    unfold seriesAddList
    rw [if_neg (by simpa using hne), if_neg (by simp)]
  rw [hadd]

/-- C4 (amended): date reconstruction collects every `DD.MM.YYYY` match in
the file content; when exactly one is found it is combined with every row's
time-of-day in both streams; when none is found and the signal stream is
nonempty, the read fails (with the numpy length-mismatch error from the
broadcast).  With several matches the dates are paired with rows
positionally, not the first one broadcast (see the counterexample). -/
theorem C4_single_date_broadcast_or_failure (dlts : List SigRow)
    (temps : List TempRow) (content : String) :
    (∀ d, findallDates content = [d] →
      read_from_d_t dlts temps content = read_with_single_date d dlts temps) ∧
    (findallDates content = [] → dlts ≠ [] →
      read_from_d_t dlts temps content = .error .lengthMismatch) :=
  ⟨fun _ hd => read_eq_single_date dlts temps hd,
   fun hd hne => read_no_date_error dlts temps hd hne⟩

/-- C4 witness: a content with exactly one date token behaves as the
broadcast single-date merge, and a content without any date token makes the
read of a one-row signal stream fail. -/
theorem C4_single_date_broadcast_or_failure_witness :
    read_from_d_t [⟨"09:00:00", 1, 2⟩] [⟨"09:00:02", 300⟩]
        "header 01.01.2024 rest" =
      read_with_single_date "01.01.2024" [⟨"09:00:00", 1, 2⟩]
        [⟨"09:00:02", 300⟩] ∧
    read_from_d_t [⟨"09:00:00", 1, 2⟩] [] "no date token" =
      .error .lengthMismatch := by
  have h := C4_single_date_broadcast_or_failure [⟨"09:00:00", 1, 2⟩]
    [⟨"09:00:02", 300⟩] "header 01.01.2024 rest"
  have h2 := C4_single_date_broadcast_or_failure [⟨"09:00:00", 1, 2⟩] []
    "no date token"
  exact ⟨h.1 "01.01.2024" (by with_unfolding_all rfl),
    h2.2 (by with_unfolding_all rfl) (by simp)⟩

/-- C4 counterexample: with two date tokens `01.01.2024 02.01.2024` and two
rows per stream, the second signal row's timestamp is built from the second
date (`09:00:05 02.01.2024`, i.e. 1704186005), not from the first substring
(`09:00:05 01.01.2024` would be 1704099605). -/
theorem C4_two_dates_pair_positionally :
    (read_from_d_t [⟨"09:00:00", 1, 2⟩, ⟨"09:00:05", 3, 4⟩]
        [⟨"23:59:59", 290⟩, ⟨"00:00:01", 300⟩]
        "01.01.2024 02.01.2024").map (List.map (fun r => r.time)) =
      .ok [1704099600, 1704186005] ∧
    parseTimestamp "09:00:05 01.01.2024" = .ok 1704099605 ∧
    (1704186005 : Int) ≠ 1704099605 :=
  ⟨by with_unfolding_all rfl, by with_unfolding_all rfl, by decide⟩

/-- C3 (amended): provided the file content yields exactly one date match
and the signal timestamps parse, merging with an empty temperature stream
does not raise: it yields one row per signal row with every temperature
null; and merging two empty streams yields the empty table. -/
theorem C3_empty_stream_merge_yields_nulls_not_error (dlts : List SigRow)
    (content : String) (d : String) (hd : findallDates content = [d])
    (sigTimes : List Int)
    (hsig : mapExcept parseTimestamp
      (dlts.map (fun r => r.time ++ " " ++ d)) = .ok sigTimes) :
    (∃ t, read_from_d_t dlts [] content = .ok t ∧
      t.length = dlts.length ∧
      t.map (fun r => r.temperature_k) = List.replicate dlts.length none) ∧
    read_from_d_t [] [] content = .ok [] := by
  have hlen : sigTimes.length = dlts.length := by
    have := mapExcept_ok_length hsig
    simpa using this
  constructor
  · refine ⟨(sigTimes.zip dlts).map (fun p =>
      { time := p.1
        frequency_hz := p.2.frequency_hz
        dlts_v := p.2.dlts_v
        temperature_k := gridLookup [] p.1 }), ?_, ?_, ?_⟩
    · rw [read_eq_single_date dlts [] hd]
      unfold read_with_single_date mergeStreams
      simp only [hsig]
      rfl
    · simp [List.length_zip, hlen]
    · simp only [List.map_map, Function.comp_def, gridLookup, List.find?_nil,
        Option.map_none']
      simp [List.length_zip, hlen]
  · rw [read_eq_single_date [] [] hd]
    rfl

/-- C3 witness: three signal rows and an empty temperature stream merge into
three rows with all temperatures null, and two empty streams merge into the
empty table. -/
theorem C3_empty_stream_merge_yields_nulls_not_error_witness :
    (∃ t, read_from_d_t [⟨"09:00:00", 1, 2⟩, ⟨"09:00:01", 3, 4⟩,
        ⟨"09:00:02", 5, 6⟩] [] "01.01.2024" = .ok t ∧
      t.length = 3 ∧
      t.map (fun r => r.temperature_k) = List.replicate 3 none) ∧
    read_from_d_t [] [] "01.01.2024" = .ok [] :=
  C3_empty_stream_merge_yields_nulls_not_error
    [⟨"09:00:00", 1, 2⟩, ⟨"09:00:01", 3, 4⟩, ⟨"09:00:02", 5, 6⟩]
    "01.01.2024" "01.01.2024" (by with_unfolding_all rfl)
    [1704099600, 1704099601, 1704099602] (by with_unfolding_all rfl)

/-- C3 counterexample: with an empty temperature stream but a file content
holding two date tokens, `read_from_d_t` raises (numpy cannot broadcast a
two-element date list onto the empty temperature series), contradicting the
claim's "never raises when a stream is empty" for arbitrary inputs. -/
theorem C3_empty_temps_two_dates_raises :
    read_from_d_t [⟨"09:00:00", 1, 2⟩, ⟨"09:00:01", 3, 4⟩] []
      "01.01.2024 02.01.2024" = .error .lengthMismatch :=
  by with_unfolding_all rfl

theorem typedCell_ne_time (b : Bool) (c : String) (ts : Int) :
    typedCell b c ≠ .timeVal ts := by
  unfold typedCell
  split
  · simp
  · split
    · split <;> simp
    · simp

theorem read_from_csv_no_time {lines : List String} {fr : Frame}
    (h : read_from_csv lines = some fr) :
    ∀ row ∈ fr.rows, ∀ c ∈ row, ∀ ts : Int, c ≠ .timeVal ts := by
  cases lines with
  | nil => cases h
  | cons hline rest =>
    simp only [read_from_csv] at h
    split at h
    · cases h
      intro row hrow c hc ts
      obtain ⟨r, _, hrow⟩ := List.mem_map.1 hrow
      subst hrow
      obtain ⟨jc, _, hcell⟩ := List.mem_map.1 hc
      subst hcell
      exact typedCell_ne_time _ _ ts
    · cases h

/-- C8 (amended): for every table (with at least one null temperature), the
binary columnar (HDF) round-trip returns the table's frame exactly; the
tabular text (CSV) round-trip does not return an equal frame whenever any
row carries a datetime: `read_from_csv` performs no datetime parsing, so the
`time` column is read back as plain text. -/
theorem C8_hdf_round_trips_csv_does_not (t : Table) (key : String)
    (_hnull : ∃ r ∈ t, r.temperature_k = none) :
    read_from_hdf (to_hdf (toFrame t) key) key = some (toFrame t) ∧
    ((∃ r ∈ t, (r.time).isSome) →
      read_from_csv (to_csv (toFrame t)) ≠ some (toFrame t)) := by
  refine ⟨by simp [read_from_hdf, to_hdf], ?_⟩
  rintro ⟨r, hr, hsome⟩ hEq
  obtain ⟨ts, hts⟩ := Option.isSome_iff_exists.1 hsome
  have hforbid := read_from_csv_no_time hEq
  have hrowmem := List.mem_map_of_mem frameRow hr
  exact hforbid _ hrowmem _ (List.mem_cons_self _ _) ts (by rw [hts]; rfl)

/-- C8 witness: on the concrete two-row `sampleTable` (null temperature in
row one, datetimes in both rows), the HDF round-trip under key `"data"`
returns the frame and the CSV round-trip does not. -/
theorem C8_hdf_round_trips_csv_does_not_witness :
    read_from_hdf (to_hdf (toFrame sampleTable) "data") "data" =
      some (toFrame sampleTable) ∧
    read_from_csv (to_csv (toFrame sampleTable)) ≠
      some (toFrame sampleTable) := by
  have h := C8_hdf_round_trips_csv_does_not sampleTable "data"
    ⟨⟨some 1704099600, some 2, some (1/2), none, some (7/2), some 10,
      some 100, some 5, some 1, some (-3), some 60, some 1, some "s1"⟩,
     List.mem_cons_self _ _, rfl⟩
  exact ⟨h.1, h.2 ⟨⟨some 1704099600, some 2, some (1/2), none, some (7/2),
    some 10, some 100, some 5, some 1, some (-3), some 60, some 1,
    some "s1"⟩, List.mem_cons_self _ _, rfl⟩⟩

set_option maxRecDepth 100000 in
/-- C8 counterexample: saving `tCsv` to CSV and loading it back does not
reproduce the table's frame — the `time` cell `2024-01-01 09:00:00` comes
back as text, not as a datetime value. -/
theorem C8_csv_round_trip_fails_on_time_column :
    read_from_csv (to_csv (toFrame tCsv)) ≠ some (toFrame tCsv) := by
  with_unfolding_all decide
